import Mathlib

/-!
Verification of the retry/rotation engine of the tti-middleware repository.

The definitions below are shallow embeddings of the TypeScript source in
`src/middleware/services/tti/providers/base-tti-provider.ts` and
`src/middleware/services/tti/providers/google-cloud-provider.ts`:
pure message classification, retry-policy resolution, backoff computation,
and the retry loop of `executeWithRetry` modelled as a fuel-indexed
recursion producing an explicit trace (invocations, sleeps, final counters).
JavaScript numbers are modelled as rationals, errors as records carrying a
message string, and the asynchronous operation as a function from the
1-based attempt index to a success value or an error.
-/

namespace TTI

/-- Lowercased character list of a string; models `message.toLowerCase()`
viewed as a character sequence. -/
def lowerChars (s : String) : List Char :=
  s.toList.map Char.toLower

/-- `containsSub m pat` models `m.includes(pat)` on a lowercased message `m`:
the pattern occurs as a contiguous substring. -/
def containsSub (m : List Char) (pat : String) : Bool :=
  m.tails.any fun t => pat.toList.isPrefixOf t

/-- From `BaseTTIProvider.isRetryableError` (base-tti-provider.ts lines
542-597): lowercase the message, fail non-retryable client-error markers
first, then retryable HTTP codes, quota descriptions and network markers. -/
def isRetryableError (message : String) : Bool :=
  let m := lowerChars message
  if containsSub m "401" || containsSub m "403" || containsSub m "400" ||
      containsSub m "authentication" || containsSub m "unauthorized" ||
      containsSub m "forbidden" then
    false
  else if containsSub m "429" || containsSub m "408" || containsSub m "500" ||
      containsSub m "502" || containsSub m "503" || containsSub m "504" then
    true
  else if containsSub m "rate limit" || containsSub m "quota exceeded" ||
      containsSub m "too many requests" || containsSub m "resource exhausted" then
    true
  else if containsSub m "timeout" || containsSub m "etimedout" ||
      containsSub m "esockettimedout" || containsSub m "econnreset" ||
      containsSub m "econnrefused" || containsSub m "enotfound" ||
      containsSub m "econnaborted" || containsSub m "epipe" ||
      containsSub m "ehostunreach" || containsSub m "enetunreach" ||
      containsSub m "socket hang up" then
    true
  else
    false

/-- From `BaseTTIProvider.isTimeoutError` (lines 411-413):
`error.message.toLowerCase().startsWith('timeout:')`. -/
def isTimeoutError (message : String) : Bool :=
  "timeout:".toList.isPrefixOf (lowerChars message)

/-- The message synthesized by `withTimeout` (line 393):
`` `timeout: ${operationName} did not complete within ${timeoutMs}ms` ``. -/
def timeoutGuardMessage (operationName : String) (timeoutMs : ℕ) : String :=
  "timeout: " ++ operationName ++ " did not complete within " ++
    toString timeoutMs ++ "ms"

/-- Error codes of the `TTIError` subclasses in base-tti-provider.ts. -/
inductive TTIErrorCode where
  | invalidConfig
  | quotaExceeded
  | providerUnavailable
  | networkError
  | generationFailed
  deriving DecidableEq

/-- A `TTIError` as relevant for classification: its code and message. -/
structure TTIErrorV where
  code : TTIErrorCode
  message : String
  deriving DecidableEq

/-- A caught JavaScript error: either a raw backend `Error` carrying only a
message, or an already-wrapped `TTIError`. -/
inductive CaughtError where
  | raw (message : String)
  | tti (e : TTIErrorV)
  deriving DecidableEq

/-- From `BaseTTIProvider.handleError` (lines 609-661): a `TTIError` passes
through unchanged; a raw error is wrapped into a `TTIError` subclass whose
message is rebuilt from a fixed phrase plus the optional context (only the
`GenerationFailedError` fallback appends the original message). -/
def handleError (err : CaughtError) (context : Option String) : TTIErrorV :=
  match err with
  | CaughtError.tti e => e
  | CaughtError.raw msg =>
    let errorMessage := lowerChars msg
    let ctxSuffix := match context with
      | some c => ": " ++ c
      | none => ""
    if containsSub errorMessage "401" || containsSub errorMessage "403" then
      ⟨TTIErrorCode.invalidConfig, "Authentication failed" ++ ctxSuffix⟩
    else if containsSub errorMessage "429" then
      ⟨TTIErrorCode.quotaExceeded, "Rate limit exceeded" ++ ctxSuffix⟩
    else if containsSub errorMessage "503" || containsSub errorMessage "504" ||
        containsSub errorMessage "502" then
      ⟨TTIErrorCode.providerUnavailable,
        "Service temporarily unavailable" ++ ctxSuffix⟩
    else if containsSub errorMessage "timeout" ||
        containsSub errorMessage "econnrefused" ||
        containsSub errorMessage "enotfound" then
      ⟨TTIErrorCode.networkError, "Network error" ++ ctxSuffix⟩
    else
      ⟨TTIErrorCode.generationFailed,
        "Generation failed" ++ ctxSuffix ++ ": " ++ msg⟩

/-- A fully-resolved retry policy,
`Required<Omit<RetryOptions, 'incrementalBackoff'>>` in the source. Counts
are naturals; millisecond/multiplier fields are JavaScript numbers,
modelled as rationals. -/
structure RetryConfig where
  maxRetries : ℕ
  delayMs : ℚ
  backoffMultiplier : ℚ
  maxDelayMs : ℚ
  jitter : Bool
  timeoutMs : ℚ
  timeoutRetries : ℕ
  deriving DecidableEq

/-- Modelled from the spec: the baseline defaults `DEFAULT_RETRY_OPTIONS`.
The `types` module declaring this constant is not among the provided
sources (only its unit tests and the changelog are); the values follow
spec section 4.2: maxRetries=3, delayMs=1000, backoffMultiplier=2.0,
maxDelayMs=30000, jitter=true, timeoutMs=45000, timeoutRetries=2. -/
def DEFAULT_RETRY_OPTIONS : RetryConfig :=
  { maxRetries := 3
    delayMs := 1000
    backoffMultiplier := 2
    maxDelayMs := 30000
    jitter := true
    timeoutMs := 45000
    timeoutRetries := 2 }

/-- The partial `RetryOptions` object a request may supply; `none` models a
field left `undefined`. -/
structure RetryOptions where
  maxRetries : Option ℕ := none
  delayMs : Option ℚ := none
  backoffMultiplier : Option ℚ := none
  maxDelayMs : Option ℚ := none
  jitter : Option Bool := none
  timeoutMs : Option ℚ := none
  timeoutRetries : Option ℕ := none
  incrementalBackoff : Option Bool := none
  deriving DecidableEq

/-- The `retry` field of a request: `boolean | RetryOptions | undefined`. -/
inductive RetryOption where
  | absent
  | flag (b : Bool)
  | opts (o : RetryOptions)
  deriving DecidableEq

/-- From `BaseTTIProvider.resolveRetryConfig` (lines 318-348): `false`
disables retries, `true`/`undefined` yield the defaults, a partial object
merges field-by-field with the defaults; the deprecated
`incrementalBackoff` flag (either value) forces `backoffMultiplier = 1.0`
when `backoffMultiplier` itself was not supplied. -/
def resolveRetryConfig (retryOption : RetryOption) : Option RetryConfig :=
  match retryOption with
  | RetryOption.flag false => none
  | RetryOption.absent => some DEFAULT_RETRY_OPTIONS
  | RetryOption.flag true => some DEFAULT_RETRY_OPTIONS
  | RetryOption.opts o =>
    let backoffMultiplier :=
      if o.incrementalBackoff.isSome && o.backoffMultiplier.isNone then
        -- source line 335: `incrementalBackoff ? 1.0 : 1.0`
        if o.incrementalBackoff.getD false then (1 : ℚ) else (1 : ℚ)
      else
        o.backoffMultiplier.getD DEFAULT_RETRY_OPTIONS.backoffMultiplier
    some
      { maxRetries := o.maxRetries.getD DEFAULT_RETRY_OPTIONS.maxRetries
        delayMs := o.delayMs.getD DEFAULT_RETRY_OPTIONS.delayMs
        backoffMultiplier := backoffMultiplier
        maxDelayMs := o.maxDelayMs.getD DEFAULT_RETRY_OPTIONS.maxDelayMs
        jitter := o.jitter.getD DEFAULT_RETRY_OPTIONS.jitter
        timeoutMs := o.timeoutMs.getD DEFAULT_RETRY_OPTIONS.timeoutMs
        timeoutRetries :=
          o.timeoutRetries.getD DEFAULT_RETRY_OPTIONS.timeoutRetries }

/-- The retry-policy resolution as worded by spec section 4.2, to be
compared with `resolveRetryConfig`: each field independently defaulted
from the baseline if unset, and the legacy boolean flag maps to
`backoffMultiplier = 1.0` only when `backoffMultiplier` was not
explicitly supplied. -/
def resolveRetrySpec (retryOption : RetryOption) : Option RetryConfig :=
  match retryOption with
  | RetryOption.flag false => none
  | RetryOption.absent => some DEFAULT_RETRY_OPTIONS
  | RetryOption.flag true => some DEFAULT_RETRY_OPTIONS
  | RetryOption.opts o =>
    some
      { maxRetries := o.maxRetries.getD DEFAULT_RETRY_OPTIONS.maxRetries
        delayMs := o.delayMs.getD DEFAULT_RETRY_OPTIONS.delayMs
        backoffMultiplier :=
          match o.backoffMultiplier with
          | some b => b
          | none =>
            if o.incrementalBackoff.isSome then (1 : ℚ)
            else DEFAULT_RETRY_OPTIONS.backoffMultiplier
        maxDelayMs := o.maxDelayMs.getD DEFAULT_RETRY_OPTIONS.maxDelayMs
        jitter := o.jitter.getD DEFAULT_RETRY_OPTIONS.jitter
        timeoutMs := o.timeoutMs.getD DEFAULT_RETRY_OPTIONS.timeoutMs
        timeoutRetries :=
          o.timeoutRetries.getD DEFAULT_RETRY_OPTIONS.timeoutRetries }

/-- From `BaseTTIProvider.calculateRetryDelay` (lines 355-371):
`round(min(delayMs * backoffMultiplier^(attempt-1), maxDelayMs))`, with
jitter replacing the capped delay by `Math.random() * cappedDelay`; the
random draw is passed in explicitly. -/
def calculateRetryDelay (attempt : ℕ) (config : RetryConfig)
    (randomDraw : ℚ) : ℤ :=
  let exponentialDelay :=
    config.delayMs * config.backoffMultiplier ^ (attempt - 1)
  let cappedDelay := min exponentialDelay config.maxDelayMs
  if config.jitter then round (randomDraw * cappedDelay)
  else round cappedDelay

/-- A thrown backend error: an object carrying a message string. -/
structure Err where
  message : String
  deriving DecidableEq

/-- Which branch of the retry loop produced a sleep. -/
inductive SleepKind where
  | timeout
  | general
  deriving DecidableEq

/-- One recorded sleep of the retry loop. -/
structure Sleep where
  kind : SleepKind
  ms : ℤ
  deriving DecidableEq

deriving instance DecidableEq for Except

/-- Observable outcome of one `executeWithRetry` run: the returned value or
thrown error (`Except.error none` is the defensive post-loop rethrow of a
null `lastError`, unreachable in practice), the number of operation
invocations, the sleeps in order, and the final values of the two retry
counters. -/
structure RunResult (α : Type) where
  outcome : Except (Option Err) α
  invocations : ℕ
  sleeps : List Sleep
  generalRetryCount : ℕ
  timeoutRetryCount : ℕ
  deriving DecidableEq

/-- The attempt loop of `BaseTTIProvider.executeWithRetry` (lines 447-534),
as a recursion on the remaining loop iterations (`fuel`). Per iteration:
invoke the operation at the current 1-based attempt index; on success
return; otherwise classify — timeout-prefixed errors consume the timeout
budget and sleep a fixed 2000 ms, other non-retryable errors are rethrown
immediately, retryable errors consume the general budget and sleep the
computed backoff delay (the jitter draw for the k-th general retry is
`rand k`). Counters are incremented before the budget check, matching the
source's `count++; if (count > max) throw`. -/
def retryGo (op : ℕ → Except Err α) (cfg : RetryConfig) (rand : ℕ → ℚ) :
    ℕ → ℕ → ℕ → ℕ → Option Err → RunResult α
  | 0, _, gen, tim, last =>
    ⟨Except.error last, 0, [], gen, tim⟩
  | fuel + 1, attempt, gen, tim, _ =>
    match op attempt with
    | Except.ok v => ⟨Except.ok v, 1, [], gen, tim⟩
    | Except.error e =>
      let isTimeout := isTimeoutError e.message
      if !isTimeout && !isRetryableError e.message then
        ⟨Except.error (some e), 1, [], gen, tim⟩
      else if isTimeout then
        if cfg.timeoutRetries < tim + 1 then
          ⟨Except.error (some e), 1, [], gen, tim + 1⟩
        else
          let r := retryGo op cfg rand fuel (attempt + 1) gen (tim + 1) (some e)
          ⟨r.outcome, r.invocations + 1, ⟨SleepKind.timeout, 2000⟩ :: r.sleeps,
            r.generalRetryCount, r.timeoutRetryCount⟩
      else
        if cfg.maxRetries < gen + 1 then
          ⟨Except.error (some e), 1, [], gen + 1, tim⟩
        else
          let d := calculateRetryDelay (gen + 1) cfg (rand (gen + 1))
          let r := retryGo op cfg rand fuel (attempt + 1) (gen + 1) tim (some e)
          ⟨r.outcome, r.invocations + 1, ⟨SleepKind.general, d⟩ :: r.sleeps,
            r.generalRetryCount, r.timeoutRetryCount⟩

/-- `BaseTTIProvider.executeWithRetry` (lines 425-535): resolve the policy;
when retries are disabled run the operation once and propagate its outcome
untouched; otherwise run the attempt loop with the hard ceiling
`absoluteMaxAttempts = 1 + maxRetries + timeoutRetries` (line 445). -/
def executeWithRetry (retryOpt : RetryOption) (op : ℕ → Except Err α)
    (rand : ℕ → ℚ) : RunResult α :=
  match resolveRetryConfig retryOpt with
  | none =>
    match op 1 with
    | Except.ok v => ⟨Except.ok v, 1, [], 0, 0⟩
    | Except.error e => ⟨Except.error (some e), 1, [], 0, 0⟩
  | some cfg =>
    retryGo op cfg rand (1 + cfg.maxRetries + cfg.timeoutRetries) 1 0 0 none

/-- Modelled from the spec: the `Quota` classification of section 4.1, used
only by the region-rotation layer. The rotation code itself is not among
the provided sources (only `tests/unit/providers/region-rotation.test.ts`
exercises it), so the quota substrings are taken from the spec:
"429", "resource exhausted", "quota exceeded", "too many requests",
"rate limit". -/
def isQuotaError (message : String) : Bool :=
  let m := lowerChars message
  containsSub m "429" || containsSub m "resource exhausted" ||
    containsSub m "quota exceeded" || containsSub m "too many requests" ||
    containsSub m "rate limit"

/-- Modelled from the spec (section 4.6): region-rotation configuration —
an ordered candidate list, a fallback region, and the `alwaysTryFallback`
flag (default true). -/
structure RegionRotationConfig (ρ : Type) where
  regions : List ρ
  fallback : ρ
  alwaysTryFallback : Bool := true

/-- Trace event of the modelled rotating/hooked executor: an operation
invocation on a region at a 1-based attempt index, an `onRetry` hook call,
or a sleep. -/
inductive RotEv (ρ : Type) where
  | attemptEv (region : ρ) (idx : ℕ)
  | hookEv (e : Err) (attemptIdx : ℕ)
  | sleepEv (kind : SleepKind) (ms : ℤ)
  deriving DecidableEq

/-- Modelled from the spec: the retry loop of sections 4.5/4.6 extended
with the `onRetry` hook and region rotation, both of which are exercised
by `tests/unit/providers/region-rotation.test.ts` but whose implementation
is not among the provided sources. The loop matches `retryGo` (and the
spec's state machine): per attempt the current region is
`regions[cursor]`, or the fallback once the list is exhausted; on every
`Quota`-classified failure the cursor advances; when the hook is supplied
it is invoked (its return value unused) before each sleep, for both
timeout and general retries, and never for a terminal failure. When the
general budget is exhausted and `alwaysTryFallback` is set and the region
just tried was not the fallback, one bonus attempt runs on the fallback
outside the budget; its own outcome is surfaced (the spec leaves the
surfaced error ambiguous; the bonus attempt's error is chosen here). -/
def rotGo [DecidableEq ρ] (op : ρ → ℕ → Except Err α) (cfg : RetryConfig)
    (rot : RegionRotationConfig ρ) (hookSupplied : Bool) (rand : ℕ → ℚ) :
    ℕ → ℕ → ℕ → ℕ → ℕ → Option Err → Except (Option Err) α × List (RotEv ρ)
  | 0, _, _, _, _, last => (Except.error last, [])
  | fuel + 1, attempt, gen, tim, cursor, _ =>
    let region := rot.regions.getD cursor rot.fallback
    match op region attempt with
    | Except.ok v => (Except.ok v, [RotEv.attemptEv region attempt])
    | Except.error e =>
      let isTimeout := isTimeoutError e.message
      let cursor' := if isQuotaError e.message then cursor + 1 else cursor
      let hookEvs : List (RotEv ρ) :=
        if hookSupplied then [RotEv.hookEv e attempt] else []
      if !isTimeout && !isRetryableError e.message then
        (Except.error (some e), [RotEv.attemptEv region attempt])
      else if isTimeout then
        if cfg.timeoutRetries < tim + 1 then
          (Except.error (some e), [RotEv.attemptEv region attempt])
        else
          let r := rotGo op cfg rot hookSupplied rand fuel (attempt + 1) gen
            (tim + 1) cursor' (some e)
          (r.1, RotEv.attemptEv region attempt ::
            (hookEvs ++ RotEv.sleepEv SleepKind.timeout 2000 :: r.2))
      else
        if cfg.maxRetries < gen + 1 then
          if rot.alwaysTryFallback = true ∧ region ≠ rot.fallback then
            match op rot.fallback (attempt + 1) with
            | Except.ok v =>
              (Except.ok v, [RotEv.attemptEv region attempt,
                RotEv.attemptEv rot.fallback (attempt + 1)])
            | Except.error e2 =>
              (Except.error (some e2), [RotEv.attemptEv region attempt,
                RotEv.attemptEv rot.fallback (attempt + 1)])
          else
            (Except.error (some e), [RotEv.attemptEv region attempt])
        else
          let d := calculateRetryDelay (gen + 1) cfg (rand (gen + 1))
          let r := rotGo op cfg rot hookSupplied rand fuel (attempt + 1)
            (gen + 1) tim cursor' (some e)
          (r.1, RotEv.attemptEv region attempt ::
            (hookEvs ++ RotEv.sleepEv SleepKind.general d :: r.2))

/-- Modelled from the spec: one invocation of the rotating executor —
fresh counters and cursor, hard attempt ceiling
`1 + maxRetries + timeoutRetries` as in `executeWithRetry`. -/
def executeWithRotation [DecidableEq ρ] (op : ρ → ℕ → Except Err α)
    (cfg : RetryConfig) (rot : RegionRotationConfig ρ) (hookSupplied : Bool)
    (rand : ℕ → ℚ) : Except (Option Err) α × List (RotEv ρ) :=
  rotGo op cfg rot hookSupplied rand
    (1 + cfg.maxRetries + cfg.timeoutRetries) 1 0 0 0 none

/-- Modelled from the spec: the onRetry-capable `executeWithRetry` of the
base provider (its 4th `options` argument in the tests), obtained from the
rotating executor by leaving rotation unconfigured (no candidate regions,
so every attempt runs on the same trivial endpoint and no bonus attempt
can fire). -/
def executeWithRetryHook (op : ℕ → Except Err α) (cfg : RetryConfig)
    (hookSupplied : Bool) (rand : ℕ → ℚ) :
    Except (Option Err) α × List (RotEv Unit) :=
  executeWithRotation (fun _ a => op a) cfg
    { regions := [], fallback := (), alwaysTryFallback := true }
    hookSupplied rand

/-- The regions, in order, on which operation invocations were made. -/
def attemptRegions : List (RotEv ρ) → List ρ
  | [] => []
  | RotEv.attemptEv r _ :: rest => r :: attemptRegions rest
  | RotEv.hookEv _ _ :: rest => attemptRegions rest
  | RotEv.sleepEv _ _ :: rest => attemptRegions rest

/-- The `(error, attemptNumber)` arguments of the hook calls, in order. -/
def hookCalls : List (RotEv ρ) → List (Err × ℕ)
  | [] => []
  | RotEv.hookEv e a :: rest => (e, a) :: hookCalls rest
  | RotEv.attemptEv _ _ :: rest => hookCalls rest
  | RotEv.sleepEv _ _ :: rest => hookCalls rest

/-- Checks that in a trace every sleep is immediately preceded by a hook
call and every hook call is immediately followed by a sleep. -/
def hookBeforeSleeps : List (RotEv ρ) → Bool
  | [] => true
  | RotEv.attemptEv _ _ :: rest => hookBeforeSleeps rest
  | RotEv.hookEv _ _ :: RotEv.sleepEv _ _ :: rest => hookBeforeSleeps rest
  | RotEv.hookEv _ _ :: _ => false
  | RotEv.sleepEv _ _ :: _ => false

end TTI

namespace TTI

theorem lowerChars_append (s t : String) :
    lowerChars (s ++ t) = lowerChars s ++ lowerChars t := by
  simp [lowerChars, String.toList, String.data_append]

theorem isPrefixOf_append_left (p l r : List Char)
    (h : p.isPrefixOf l = true) : p.isPrefixOf (l ++ r) = true := by
  induction p generalizing l with
  | nil => simp [List.isPrefixOf]
  | cons a as ih =>
    cases l with
    | nil => simp [List.isPrefixOf] at h
    | cons b bs =>
      simp only [List.cons_append, List.isPrefixOf, Bool.and_eq_true] at h ⊢
      exact ⟨h.1, ih bs h.2⟩

theorem round_le_round_of_le {x y : ℚ} (h : x ≤ y) : round x ≤ round y := by
  rw [round_eq, round_eq]
  exact Int.floor_mono (by linarith)

/-- Every message synthesized by the timeout guard starts (case-insensitively)
with the tag the timeout check looks for. -/
theorem isTimeoutError_guardMessage (operationName : String) (timeoutMs : ℕ) :
    isTimeoutError (timeoutGuardMessage operationName timeoutMs) = true := by
  have assoc : timeoutGuardMessage operationName timeoutMs =
      "timeout: " ++ (operationName ++ (" did not complete within " ++
        (toString timeoutMs ++ "ms"))) := by
    simp [timeoutGuardMessage, String.append_assoc]
  rw [isTimeoutError, assoc, lowerChars_append]
  exact isPrefixOf_append_left _ _ _ (by decide)

theorem retryGo_invocations_le_fuel (op : ℕ → Except Err α)
    (cfg : RetryConfig) (rand : ℕ → ℚ) :
    ∀ fuel attempt gen tim last,
      (retryGo op cfg rand fuel attempt gen tim last).invocations ≤ fuel := by
  intro fuel
  induction fuel with
  | zero => intro attempt gen tim last; simp [retryGo]
  | succ n ih =>
    intro attempt gen tim last
    cases h : op attempt with
    | ok v => simp [retryGo, h]
    | error e =>
      simp only [retryGo, h]
      split_ifs <;>
        · have h1 := ih (attempt + 1) gen (tim + 1) (some e)
          have h2 := ih (attempt + 1) (gen + 1) tim (some e)
          simp
          try omega

theorem retryGo_invocations_all_retryable (op : ℕ → Except Err α)
    (cfg : RetryConfig) (rand : ℕ → ℚ)
    (H : ∀ a e, op a = Except.error e →
      isTimeoutError e.message = false ∧ isRetryableError e.message = true) :
    ∀ fuel attempt gen tim last, gen ≤ cfg.maxRetries →
      (retryGo op cfg rand fuel attempt gen tim last).invocations ≤
        cfg.maxRetries + 1 - gen := by
  intro fuel
  induction fuel with
  | zero => intro attempt gen tim last hg; simp [retryGo]
  | succ n ih =>
    intro attempt gen tim last hg
    cases h : op attempt with
    | ok v => simp [retryGo, h]; try omega
    | error e =>
      obtain ⟨hT, hR⟩ := H attempt e h
      simp only [retryGo, h, hT, hR, Bool.not_false, Bool.not_true,
        Bool.and_false, Bool.false_and, Bool.false_eq_true, if_false]
      split_ifs with hbudget
      · simp; omega
      · have hgen : gen + 1 ≤ cfg.maxRetries := by omega
        have := ih (attempt + 1) (gen + 1) tim (some e) hgen
        simp
        omega

theorem retryGo_timeout_sleep_fixed (op : ℕ → Except Err α)
    (cfg : RetryConfig) (rand : ℕ → ℚ) :
    ∀ fuel attempt gen tim last s,
      s ∈ (retryGo op cfg rand fuel attempt gen tim last).sleeps →
      s.kind = SleepKind.timeout → s.ms = 2000 := by
  intro fuel
  induction fuel with
  | zero => intro attempt gen tim last s hs; simp [retryGo] at hs
  | succ n ih =>
    intro attempt gen tim last s hs hk
    cases h : op attempt with
    | ok v => simp [retryGo, h] at hs
    | error e =>
      simp only [retryGo, h] at hs
      split_ifs at hs
      · simp at hs
      · simp at hs
      · simp only [List.mem_cons] at hs
        rcases hs with hs | hs
        · rw [hs]
        · exact ih (attempt + 1) gen (tim + 1) (some e) s hs hk
      · simp at hs
      · simp only [List.mem_cons] at hs
        rcases hs with hs | hs
        · rw [hs] at hk; simp at hk
        · exact ih (attempt + 1) (gen + 1) tim (some e) s hs hk

theorem rotGo_hookBeforeSleeps {ρ : Type} [DecidableEq ρ]
    (op : ρ → ℕ → Except Err α) (cfg : RetryConfig)
    (rot : RegionRotationConfig ρ) (rand : ℕ → ℚ) :
    ∀ fuel attempt gen tim cursor last,
      hookBeforeSleeps
        (rotGo op cfg rot true rand fuel attempt gen tim cursor last).2 =
      true := by
  intro fuel
  induction fuel with
  | zero => intro a g t c l; simp [rotGo, hookBeforeSleeps]
  | succ n ih =>
    intro a g t c l
    simp only [rotGo]
    cases h : op (rot.regions.getD c rot.fallback) a with
    | ok v => simp [hookBeforeSleeps]
    | error e =>
      repeat' split
      all_goals try simp [hookBeforeSleeps]
      all_goals first | apply ih | simp_all

theorem rotGo_outcome_hook_irrelevant {ρ : Type} [DecidableEq ρ]
    (op : ρ → ℕ → Except Err α) (cfg : RetryConfig)
    (rot : RegionRotationConfig ρ) (rand : ℕ → ℚ) (hk1 hk2 : Bool) :
    ∀ fuel attempt gen tim cursor last,
      (rotGo op cfg rot hk1 rand fuel attempt gen tim cursor last).1 =
      (rotGo op cfg rot hk2 rand fuel attempt gen tim cursor last).1 := by
  intro fuel
  induction fuel with
  | zero => intro a g t c l; simp [rotGo]
  | succ n ih =>
    intro a g t c l
    simp only [rotGo]
    cases h : op (rot.regions.getD c rot.fallback) a with
    | ok v => rfl
    | error e =>
      repeat' split
      all_goals first | rfl | apply ih

/-- C3: refuted on the code. `handleError` does not preserve the backend
message: a raw "503 Service Unavailable" error — retryable by
`isRetryableError` — wraps to the rebuilt message
"Service temporarily unavailable: during Gemini API call" (the wrapping
`generateWithGemini` applies inside the retried operation), and that
wrapped message is classified non-retryable; likewise for "ECONNREFUSED". -/
theorem handleError_drops_retryable_message :
    isRetryableError "503 Service Unavailable" = true ∧
    isTimeoutError "503 Service Unavailable" = false ∧
    (handleError (CaughtError.raw "503 Service Unavailable")
        (some "during Gemini API call")).message =
      "Service temporarily unavailable: during Gemini API call" ∧
    isRetryableError
      (handleError (CaughtError.raw "503 Service Unavailable")
        (some "during Gemini API call")).message = false ∧
    isRetryableError "ECONNREFUSED" = true ∧
    isRetryableError
      (handleError (CaughtError.raw "ECONNREFUSED")
        (some "during Gemini API call")).message = false := by
  decide

/-- C4: an error classified non-retryable (neither timeout-tagged nor
matched by the retryable tables of `isRetryableError`) on the first
attempt makes `executeWithRetry` invoke the operation exactly once,
sleep zero times, consume neither retry budget, and rethrow the original
error unchanged — for every retry option. -/
theorem executeWithRetry_nonRetryable_once (retryOpt : RetryOption)
    (op : ℕ → Except Err α) (rand : ℕ → ℚ) (e : Err)
    (h1 : op 1 = Except.error e)
    (hT : isTimeoutError e.message = false)
    (hR : isRetryableError e.message = false) :
    executeWithRetry retryOpt op rand =
      ⟨Except.error (some e), 1, [], 0, 0⟩ := by
  cases hres : resolveRetryConfig retryOpt with
  | none => simp [executeWithRetry, hres, h1]
  | some cfg =>
    have hfuel : 1 + cfg.maxRetries + cfg.timeoutRetries =
        (cfg.maxRetries + cfg.timeoutRetries) + 1 := by omega
    simp only [executeWithRetry, hres, hfuel]
    simp [retryGo, h1, hT, hR]

/-- C4 witness: a 401-style error is rethrown after a single invocation with
no sleeps and untouched budgets. -/
theorem executeWithRetry_nonRetryable_once_witness :
    executeWithRetry RetryOption.absent
      (fun _ => Except.error ⟨"401 Unauthorized"⟩ : ℕ → Except Err ℕ)
      (fun _ => 0) =
      ⟨Except.error (some ⟨"401 Unauthorized"⟩), 1, [], 0, 0⟩ :=
  executeWithRetry_nonRetryable_once RetryOption.absent _ _ _
    rfl (by decide) (by decide)

/-- C9: with jitter disabled, `calculateRetryDelay` is non-decreasing in
the attempt number and never exceeds `maxDelayMs`, for every policy whose
base delay is non-negative, whose backoff multiplier is at least 1, and
whose delay cap is a whole number of milliseconds. -/
theorem calculateRetryDelay_monotone_bounded (config : RetryConfig)
    (hj : config.jitter = false) (hd : 0 ≤ config.delayMs)
    (hb : 1 ≤ config.backoffMultiplier) (M : ℤ)
    (hM : config.maxDelayMs = (M : ℚ)) :
    (∀ a b : ℕ, a ≤ b → ∀ r r' : ℚ,
      calculateRetryDelay a config r ≤ calculateRetryDelay b config r') ∧
    (∀ (a : ℕ) (r : ℚ), calculateRetryDelay a config r ≤ M) := by
  constructor
  · intro a b hab r r'
    simp only [calculateRetryDelay, hj, Bool.false_eq_true, if_false]
    apply round_le_round_of_le
    apply min_le_min _ le_rfl
    apply mul_le_mul_of_nonneg_left _ hd
    exact pow_le_pow_right₀ hb (by omega)
  · intro a r
    simp only [calculateRetryDelay, hj, Bool.false_eq_true, if_false]
    calc round (min (config.delayMs * config.backoffMultiplier ^ (a - 1))
          config.maxDelayMs)
        ≤ round ((M : ℚ)) := round_le_round_of_le (hM ▸ min_le_right _ _)
      _ = M := round_intCast M

/-- C9 witness: with the spec's numbers (delayMs=1000, multiplier=2,
maxDelayMs=30000, jitter off), the delay is monotone between attempts 1
and 3 and attempt 20's delay stays at or below the cap. -/
theorem calculateRetryDelay_monotone_bounded_witness :
    (calculateRetryDelay 1 ⟨3, 1000, 2, 30000, false, 45000, 2⟩ 0 ≤
      calculateRetryDelay 3 ⟨3, 1000, 2, 30000, false, 45000, 2⟩ 0) ∧
    calculateRetryDelay 20 ⟨3, 1000, 2, 30000, false, 45000, 2⟩ 0 ≤ 30000 :=
  ⟨(calculateRetryDelay_monotone_bounded ⟨3, 1000, 2, 30000, false, 45000, 2⟩
      rfl (by norm_num) (by norm_num) 30000 (by norm_num)).1
      1 3 (by norm_num) 0 0,
    (calculateRetryDelay_monotone_bounded ⟨3, 1000, 2, 30000, false, 45000, 2⟩
      rfl (by norm_num) (by norm_num) 30000 (by norm_num)).2 20 0⟩

/-- C1: with maxRetries=2 and timeoutRetries=2, a run whose first four
attempts fail in the order (Timeout, Retryable, Timeout, Retryable) and
whose fifth attempt succeeds returns the fifth attempt's value after
exactly five invocations; the timeout failures consumed only the timeout
counter and the retryable failures only the general counter (both end at
2, within their disjoint budgets of 2 each). -/
theorem executeWithRetry_disjoint_budgets (e1 e2 e3 e4 : Err) (v : α)
    (rand : ℕ → ℚ)
    (h1 : isTimeoutError e1.message = true)
    (h2T : isTimeoutError e2.message = false)
    (h2R : isRetryableError e2.message = true)
    (h3 : isTimeoutError e3.message = true)
    (h4T : isTimeoutError e4.message = false)
    (h4R : isRetryableError e4.message = true) :
    (executeWithRetry
      (RetryOption.opts { maxRetries := some 2, timeoutRetries := some 2 })
      (fun a => if a = 1 then Except.error e1
        else if a = 2 then Except.error e2
        else if a = 3 then Except.error e3
        else if a = 4 then Except.error e4
        else Except.ok v)
      rand).outcome = Except.ok v ∧
    (executeWithRetry
      (RetryOption.opts { maxRetries := some 2, timeoutRetries := some 2 })
      (fun a => if a = 1 then Except.error e1
        else if a = 2 then Except.error e2
        else if a = 3 then Except.error e3
        else if a = 4 then Except.error e4
        else Except.ok v)
      rand).invocations = 5 ∧
    (executeWithRetry
      (RetryOption.opts { maxRetries := some 2, timeoutRetries := some 2 })
      (fun a => if a = 1 then Except.error e1
        else if a = 2 then Except.error e2
        else if a = 3 then Except.error e3
        else if a = 4 then Except.error e4
        else Except.ok v)
      rand).generalRetryCount = 2 ∧
    (executeWithRetry
      (RetryOption.opts { maxRetries := some 2, timeoutRetries := some 2 })
      (fun a => if a = 1 then Except.error e1
        else if a = 2 then Except.error e2
        else if a = 3 then Except.error e3
        else if a = 4 then Except.error e4
        else Except.ok v)
      rand).timeoutRetryCount = 2 := by
  refine ⟨?_, ?_, ?_, ?_⟩ <;>
    norm_num [executeWithRetry, resolveRetryConfig, DEFAULT_RETRY_OPTIONS,
      retryGo, h1, h2T, h2R, h3, h4T, h4R]

/-- C1 witness: concrete guard-timeout and 503 messages realize the
(Timeout, Retryable, Timeout, Retryable, success) run. -/
theorem executeWithRetry_disjoint_budgets_witness :
    (executeWithRetry
      (RetryOption.opts { maxRetries := some 2, timeoutRetries := some 2 })
      (fun a => if a = 1 then Except.error ⟨"timeout: Gemini API call did not complete within 45000ms"⟩
        else if a = 2 then Except.error ⟨"503 Service Unavailable"⟩
        else if a = 3 then Except.error ⟨"timeout: Gemini API call did not complete within 45000ms"⟩
        else if a = 4 then Except.error ⟨"503 Service Unavailable"⟩
        else Except.ok (42 : ℕ))
      (fun _ => 0)).outcome = Except.ok 42 ∧
    (executeWithRetry
      (RetryOption.opts { maxRetries := some 2, timeoutRetries := some 2 })
      (fun a => if a = 1 then Except.error ⟨"timeout: Gemini API call did not complete within 45000ms"⟩
        else if a = 2 then Except.error ⟨"503 Service Unavailable"⟩
        else if a = 3 then Except.error ⟨"timeout: Gemini API call did not complete within 45000ms"⟩
        else if a = 4 then Except.error ⟨"503 Service Unavailable"⟩
        else Except.ok (42 : ℕ))
      (fun _ => 0)).invocations = 5 ∧
    (executeWithRetry
      (RetryOption.opts { maxRetries := some 2, timeoutRetries := some 2 })
      (fun a => if a = 1 then Except.error ⟨"timeout: Gemini API call did not complete within 45000ms"⟩
        else if a = 2 then Except.error ⟨"503 Service Unavailable"⟩
        else if a = 3 then Except.error ⟨"timeout: Gemini API call did not complete within 45000ms"⟩
        else if a = 4 then Except.error ⟨"503 Service Unavailable"⟩
        else Except.ok (42 : ℕ))
      (fun _ => 0)).generalRetryCount = 2 ∧
    (executeWithRetry
      (RetryOption.opts { maxRetries := some 2, timeoutRetries := some 2 })
      (fun a => if a = 1 then Except.error ⟨"timeout: Gemini API call did not complete within 45000ms"⟩
        else if a = 2 then Except.error ⟨"503 Service Unavailable"⟩
        else if a = 3 then Except.error ⟨"timeout: Gemini API call did not complete within 45000ms"⟩
        else if a = 4 then Except.error ⟨"503 Service Unavailable"⟩
        else Except.ok (42 : ℕ))
      (fun _ => 0)).timeoutRetryCount = 2 :=
  executeWithRetry_disjoint_budgets
    ⟨"timeout: Gemini API call did not complete within 45000ms"⟩
    ⟨"503 Service Unavailable"⟩
    ⟨"timeout: Gemini API call did not complete within 45000ms"⟩
    ⟨"503 Service Unavailable"⟩ 42 (fun _ => 0)
    (by decide) (by decide) (by decide) (by decide) (by decide) (by decide)

/-- C5: with retry = (maxRetries 2, delayMs 1000, backoffMultiplier 2,
jitter off), two retryable failures then a success yield sleeps of exactly
1000 ms then 2000 ms (the k-th general retry sleeps
round(min(1000 * 2^(k-1), 30000))), the third attempt's value, and three
invocations; and after a (Timeout, Retryable, success) run the single
general retry still sleeps 1000 ms — the backoff exponent counts general
retries, not the overall attempt index (which would give 2000 ms). -/
theorem executeWithRetry_backoff_delays (e1 e2 eT eR : Err) (v w : α)
    (rand : ℕ → ℚ)
    (h1T : isTimeoutError e1.message = false)
    (h1R : isRetryableError e1.message = true)
    (h2T : isTimeoutError e2.message = false)
    (h2R : isRetryableError e2.message = true)
    (hTT : isTimeoutError eT.message = true)
    (hRT : isTimeoutError eR.message = false)
    (hRR : isRetryableError eR.message = true) :
    executeWithRetry
      (RetryOption.opts
        { maxRetries := some 2, delayMs := some 1000,
          backoffMultiplier := some 2, jitter := some false })
      (fun a => if a = 1 then Except.error e1
        else if a = 2 then Except.error e2 else Except.ok v)
      rand =
      ⟨Except.ok v, 3,
        [⟨SleepKind.general, 1000⟩, ⟨SleepKind.general, 2000⟩], 2, 0⟩ ∧
    executeWithRetry
      (RetryOption.opts
        { maxRetries := some 2, delayMs := some 1000,
          backoffMultiplier := some 2, jitter := some false })
      (fun a => if a = 1 then Except.error eT
        else if a = 2 then Except.error eR else Except.ok w)
      rand =
      ⟨Except.ok w, 3,
        [⟨SleepKind.timeout, 2000⟩, ⟨SleepKind.general, 1000⟩], 1, 1⟩ := by
  constructor <;>
    norm_num [executeWithRetry, resolveRetryConfig, DEFAULT_RETRY_OPTIONS,
      retryGo, calculateRetryDelay, h1T, h1R, h2T, h2R, hTT, hRT, hRR]

/-- C5 witness: 429-style messages realize both runs. -/
theorem executeWithRetry_backoff_delays_witness :
    executeWithRetry
      (RetryOption.opts
        { maxRetries := some 2, delayMs := some 1000,
          backoffMultiplier := some 2, jitter := some false })
      (fun a => if a = 1 then Except.error ⟨"429 Too Many Requests"⟩
        else if a = 2 then Except.error ⟨"429 Too Many Requests"⟩
        else Except.ok (42 : ℕ))
      (fun _ => 0) =
      ⟨Except.ok 42, 3,
        [⟨SleepKind.general, 1000⟩, ⟨SleepKind.general, 2000⟩], 2, 0⟩ ∧
    executeWithRetry
      (RetryOption.opts
        { maxRetries := some 2, delayMs := some 1000,
          backoffMultiplier := some 2, jitter := some false })
      (fun a => if a = 1 then Except.error ⟨"timeout: op did not complete within 45000ms"⟩
        else if a = 2 then Except.error ⟨"429 Too Many Requests"⟩
        else Except.ok (7 : ℕ))
      (fun _ => 0) =
      ⟨Except.ok 7, 3,
        [⟨SleepKind.timeout, 2000⟩, ⟨SleepKind.general, 1000⟩], 1, 1⟩ :=
  executeWithRetry_backoff_delays ⟨"429 Too Many Requests"⟩
    ⟨"429 Too Many Requests"⟩
    ⟨"timeout: op did not complete within 45000ms"⟩
    ⟨"429 Too Many Requests"⟩ 42 7 (fun _ => 0)
    (by decide) (by decide) (by decide) (by decide) (by decide) (by decide)
    (by decide)

/-- C7: under any resolved policy, `executeWithRetry` invokes the operation
at most `1 + maxRetries + timeoutRetries` times (the hard termination
ceiling); and if every failure the operation produces is classified
retryable, at most `maxRetries + 1` times. -/
theorem executeWithRetry_attempt_ceiling (retryOpt : RetryOption)
    (cfg : RetryConfig) (op : ℕ → Except Err α) (rand : ℕ → ℚ)
    (hres : resolveRetryConfig retryOpt = some cfg) :
    (executeWithRetry retryOpt op rand).invocations ≤
      1 + cfg.maxRetries + cfg.timeoutRetries ∧
    ((∀ a e, op a = Except.error e →
        isTimeoutError e.message = false ∧ isRetryableError e.message = true) →
      (executeWithRetry retryOpt op rand).invocations ≤ cfg.maxRetries + 1) := by
  constructor
  · simp only [executeWithRetry, hres]
    exact retryGo_invocations_le_fuel op cfg rand _ 1 0 0 none
  · intro H
    simp only [executeWithRetry, hres]
    have h := retryGo_invocations_all_retryable op cfg rand H
      (1 + cfg.maxRetries + cfg.timeoutRetries) 1 0 0 none (Nat.zero_le _)
    omega

/-- C7 witness: an always-failing 503 operation under maxRetries=2,
timeoutRetries=2 stays within both ceilings. -/
theorem executeWithRetry_attempt_ceiling_witness :
    (executeWithRetry
      (RetryOption.opts { maxRetries := some 2, timeoutRetries := some 2 })
      (fun _ => Except.error ⟨"503 Service Unavailable"⟩ : ℕ → Except Err ℕ)
      (fun _ => 0)).invocations ≤ 1 + 2 + 2 ∧
    (executeWithRetry
      (RetryOption.opts { maxRetries := some 2, timeoutRetries := some 2 })
      (fun _ => Except.error ⟨"503 Service Unavailable"⟩ : ℕ → Except Err ℕ)
      (fun _ => 0)).invocations ≤ 2 + 1 := by
  have h := executeWithRetry_attempt_ceiling
    (RetryOption.opts { maxRetries := some 2, timeoutRetries := some 2 })
    { maxRetries := 2, delayMs := 1000, backoffMultiplier := 2,
      maxDelayMs := 30000, jitter := true, timeoutMs := 45000,
      timeoutRetries := 2 }
    (fun _ => Except.error ⟨"503 Service Unavailable"⟩ : ℕ → Except Err ℕ)
    (fun _ => 0) (by rfl)
  exact ⟨h.1, h.2 (by intro a e he; cases he; exact ⟨by decide, by decide⟩)⟩

/-- C8: every message synthesized by the timeout guard classifies as
Timeout; every timeout-classified failure that triggers a retry sleeps a
fixed 2000 ms, never the backoff formula; and the Timeout classification
bypasses the message-substring rules — a guard message that even contains
the non-retryable marker "400" (here as the 400 ms bound) is still
retried as a timeout. -/
theorem timeoutGuard_always_timeout (v : α) (rand : ℕ → ℚ) :
    (∀ (operationName : String) (timeoutMs : ℕ),
      isTimeoutError (timeoutGuardMessage operationName timeoutMs) = true) ∧
    (∀ (retryOpt : RetryOption) (op : ℕ → Except Err α) (r : ℕ → ℚ)
        (s : Sleep), s ∈ (executeWithRetry retryOpt op r).sleeps →
      s.kind = SleepKind.timeout → s.ms = 2000) ∧
    isRetryableError (timeoutGuardMessage "Gemini API call" 400) = false ∧
    executeWithRetry RetryOption.absent
      (fun a => if a = 1 then
          Except.error ⟨timeoutGuardMessage "Gemini API call" 400⟩
        else Except.ok v)
      rand =
      ⟨Except.ok v, 2, [⟨SleepKind.timeout, 2000⟩], 0, 1⟩ := by
  refine ⟨isTimeoutError_guardMessage, ?_, by decide, ?_⟩
  · intro retryOpt op r s hs hk
    cases hres : resolveRetryConfig retryOpt with
    | none =>
      simp only [executeWithRetry, hres] at hs
      cases h1 : op 1 <;> simp [h1] at hs
    | some cfg =>
      simp only [executeWithRetry, hres] at hs
      exact retryGo_timeout_sleep_fixed op cfg r _ 1 0 0 none s hs hk
  · norm_num [executeWithRetry, resolveRetryConfig, DEFAULT_RETRY_OPTIONS,
      retryGo,
      (by decide :
        isTimeoutError (timeoutGuardMessage "Gemini API call" 400) = true)]

/-- C8 witness: the sleeps clause applied to a run with one guard timeout. -/
theorem timeoutGuard_always_timeout_witness :
    isTimeoutError (timeoutGuardMessage "Imagen API call" 45000) = true ∧
    (⟨SleepKind.timeout, 2000⟩ : Sleep) ∈
      (executeWithRetry RetryOption.absent
        (fun a => if a = 1 then
            Except.error ⟨timeoutGuardMessage "Gemini API call" 400⟩
          else Except.ok (9 : ℕ))
        (fun _ => 0)).sleeps ∧
    (⟨SleepKind.timeout, 2000⟩ : Sleep).ms = 2000 :=
  ⟨(timeoutGuard_always_timeout (9 : ℕ) (fun _ => 0)).1 "Imagen API call" 45000,
    by
      rw [(timeoutGuard_always_timeout (9 : ℕ) (fun _ => 0)).2.2.2]
      simp,
    (timeoutGuard_always_timeout (9 : ℕ) (fun _ => 0)).2.1
      RetryOption.absent
      (fun a => if a = 1 then
          Except.error ⟨timeoutGuardMessage "Gemini API call" 400⟩
        else Except.ok (9 : ℕ))
      (fun _ => 0) ⟨SleepKind.timeout, 2000⟩
      (by
        rw [(timeoutGuard_always_timeout (9 : ℕ) (fun _ => 0)).2.2.2]
        simp)
      rfl⟩

/-- C6: retry-policy resolution — `false` disables retries (the operation
then runs exactly once with its outcome, success or error, propagated
untouched), `true` and absent yield the full baseline defaults, and a
partial object resolves exactly as the spec words it (`resolveRetrySpec`):
each field independently defaulted, the legacy `incrementalBackoff` flag
forcing multiplier 1.0 only when `backoffMultiplier` was not supplied.
The resolved policy is a total `RetryConfig`, so no undefined field can
reach the executor. -/
theorem resolveRetryConfig_spec_agreement :
    resolveRetryConfig (RetryOption.flag false) = none ∧
    resolveRetryConfig RetryOption.absent = some DEFAULT_RETRY_OPTIONS ∧
    resolveRetryConfig (RetryOption.flag true) = some DEFAULT_RETRY_OPTIONS ∧
    (∀ r : RetryOption, resolveRetryConfig r = resolveRetrySpec r) ∧
    (∀ (op : ℕ → Except Err α) (rand : ℕ → ℚ) (v : α),
      op 1 = Except.ok v →
      executeWithRetry (RetryOption.flag false) op rand =
        ⟨Except.ok v, 1, [], 0, 0⟩) ∧
    (∀ (op : ℕ → Except Err α) (rand : ℕ → ℚ) (e : Err),
      op 1 = Except.error e →
      executeWithRetry (RetryOption.flag false) op rand =
        ⟨Except.error (some e), 1, [], 0, 0⟩) := by
  refine ⟨rfl, rfl, rfl, ?_, ?_, ?_⟩
  · intro r
    cases r with
    | absent => rfl
    | flag b => cases b <;> rfl
    | opts o =>
      cases hbm : o.backoffMultiplier <;> cases hib : o.incrementalBackoff <;>
        simp [resolveRetryConfig, resolveRetrySpec, hbm, hib]
  · intro op rand v h
    simp [executeWithRetry, resolveRetryConfig, h]
  · intro op rand e h
    simp [executeWithRetry, resolveRetryConfig, h]

/-- C6 witness: a partial object with the legacy flag and no multiplier
resolves to multiplier 1.0, and a disabled-retry run propagates a
non-retryable error after one invocation. -/
theorem resolveRetryConfig_spec_agreement_witness :
    resolveRetryConfig
        (RetryOption.opts
          { maxRetries := some 5, incrementalBackoff := some true }) =
      resolveRetrySpec
        (RetryOption.opts
          { maxRetries := some 5, incrementalBackoff := some true }) ∧
    executeWithRetry (RetryOption.flag false)
      (fun _ => Except.error ⟨"401 Unauthorized"⟩ : ℕ → Except Err ℕ)
      (fun _ => 0) =
      ⟨Except.error (some ⟨"401 Unauthorized"⟩), 1, [], 0, 0⟩ :=
  ⟨(resolveRetryConfig_spec_agreement (α := ℕ)).2.2.2.1
      (RetryOption.opts { maxRetries := some 5, incrementalBackoff := some true }),
    (resolveRetryConfig_spec_agreement (α := ℕ)).2.2.2.2.2
      (fun _ => Except.error ⟨"401 Unauthorized"⟩) (fun _ => 0)
      ⟨"401 Unauthorized"⟩ rfl⟩

/-- C2: region rotation, modelled from the spec (the rotating provider code
is exercised only by tests in the provided tree): with candidates
[A, B, C], fallback F and maxRetries=5, an invocation whose every attempt
fails with a quota-classified error starts at the first candidate and uses
regions A, B, C, F, F, F over its six attempts — one candidate advanced
per quota failure, then the fallback for the rest of the invocation — and
rethrows the quota error once the general budget is exhausted. -/
theorem executeWithRotation_quota_rotation (e : Err) (rand : ℕ → ℚ)
    (hq : isQuotaError e.message = true)
    (hT : isTimeoutError e.message = false)
    (hR : isRetryableError e.message = true) :
    attemptRegions
      (executeWithRotation
        (fun _ _ => Except.error e : String → ℕ → Except Err ℕ)
        { DEFAULT_RETRY_OPTIONS with maxRetries := 5 }
        { regions := ["A", "B", "C"], fallback := "F" } false rand).2 =
      ["A", "B", "C", "F", "F", "F"] ∧
    (executeWithRotation
        (fun _ _ => Except.error e : String → ℕ → Except Err ℕ)
        { DEFAULT_RETRY_OPTIONS with maxRetries := 5 }
        { regions := ["A", "B", "C"], fallback := "F" } false rand).1 =
      Except.error (some e) := by
  constructor <;>
    norm_num [executeWithRotation, rotGo, attemptRegions,
      DEFAULT_RETRY_OPTIONS, hq, hT, hR]

/-- C2 witness: a "429 resource exhausted" quota error realizes the
A, B, C, F, F, F rotation. -/
theorem executeWithRotation_quota_rotation_witness :
    attemptRegions
      (executeWithRotation
        (fun _ _ => Except.error ⟨"429 resource exhausted"⟩ :
          String → ℕ → Except Err ℕ)
        { DEFAULT_RETRY_OPTIONS with maxRetries := 5 }
        { regions := ["A", "B", "C"], fallback := "F" } false
        (fun _ => 0)).2 =
      ["A", "B", "C", "F", "F", "F"] :=
  (executeWithRotation_quota_rotation ⟨"429 resource exhausted"⟩ (fun _ => 0)
    (by decide) (by decide) (by decide)).1

/-- C10: the onRetry hook, modelled from the spec (the hook-capable
executor appears only in the tests of the provided tree): when supplied,
the hook runs exactly once immediately before every sleep — timeout and
general retries alike — receiving the caught error and the 1-based
attempt number; it never runs for a failure that terminates the loop; and
its presence (hence its return value) has no effect on the outcome. -/
theorem executeWithRetryHook_onRetry (e1 e2 eN eT : Err) (v w : α)
    (rand : ℕ → ℚ)
    (h1T : isTimeoutError e1.message = false)
    (h1R : isRetryableError e1.message = true)
    (h2T : isTimeoutError e2.message = false)
    (h2R : isRetryableError e2.message = true)
    (hNT : isTimeoutError eN.message = false)
    (hNR : isRetryableError eN.message = false)
    (hTT : isTimeoutError eT.message = true) :
    (∀ (op : ℕ → Except Err α) (cfg : RetryConfig) (r : ℕ → ℚ),
      hookBeforeSleeps (executeWithRetryHook op cfg true r).2 = true) ∧
    (∀ (op : ℕ → Except Err α) (cfg : RetryConfig) (r : ℕ → ℚ),
      (executeWithRetryHook op cfg true r).1 =
      (executeWithRetryHook op cfg false r).1) ∧
    hookCalls (executeWithRetryHook
      (fun a => if a = 1 then Except.error e1
        else if a = 2 then Except.error e2 else Except.ok v)
      { DEFAULT_RETRY_OPTIONS with maxRetries := 5 } true rand).2 =
      [(e1, 1), (e2, 2)] ∧
    hookCalls (executeWithRetryHook
      (fun _ => Except.error eN : ℕ → Except Err α)
      DEFAULT_RETRY_OPTIONS true rand).2 = [] ∧
    hookCalls (executeWithRetryHook
      (fun _ => Except.error e1 : ℕ → Except Err α)
      { DEFAULT_RETRY_OPTIONS with maxRetries := 2 } true rand).2 =
      [(e1, 1), (e1, 2)] ∧
    (executeWithRetryHook
      (fun a => if a = 1 then Except.error eT else Except.ok w)
      DEFAULT_RETRY_OPTIONS true rand).2 =
      [RotEv.attemptEv () 1, RotEv.hookEv eT 1,
        RotEv.sleepEv SleepKind.timeout 2000, RotEv.attemptEv () 2] := by
  refine ⟨?_, ?_, ?_, ?_, ?_, ?_⟩
  · intro op cfg r
    exact rotGo_hookBeforeSleeps _ cfg _ r _ 1 0 0 0 none
  · intro op cfg r
    exact rotGo_outcome_hook_irrelevant _ cfg _ r true false _ 1 0 0 0 none
  · norm_num [executeWithRetryHook, executeWithRotation, rotGo, hookCalls,
      DEFAULT_RETRY_OPTIONS, h1T, h1R, h2T, h2R]
  · norm_num [executeWithRetryHook, executeWithRotation, rotGo, hookCalls,
      DEFAULT_RETRY_OPTIONS, hNT, hNR]
  · norm_num [executeWithRetryHook, executeWithRotation, rotGo, hookCalls,
      DEFAULT_RETRY_OPTIONS, h1T, h1R]
  · norm_num [executeWithRetryHook, executeWithRotation, rotGo,
      DEFAULT_RETRY_OPTIONS, hTT]

/-- C10 witness: concrete 503/401/timeout messages realize the hook-call
traces. -/
theorem executeWithRetryHook_onRetry_witness :
    hookCalls (executeWithRetryHook
      (fun a => if a = 1 then Except.error ⟨"503 first"⟩
        else if a = 2 then Except.error ⟨"503 second"⟩
        else Except.ok (1 : ℕ))
      { DEFAULT_RETRY_OPTIONS with maxRetries := 5 } true (fun _ => 0)).2 =
      [(⟨"503 first"⟩, 1), (⟨"503 second"⟩, 2)] ∧
    hookCalls (executeWithRetryHook
      (fun _ => Except.error ⟨"401 Unauthorized"⟩ : ℕ → Except Err ℕ)
      DEFAULT_RETRY_OPTIONS true (fun _ => 0)).2 = [] :=
  ⟨(executeWithRetryHook_onRetry ⟨"503 first"⟩ ⟨"503 second"⟩
      ⟨"401 Unauthorized"⟩ ⟨"timeout: op did not complete within 45000ms"⟩
      (1 : ℕ) (1 : ℕ) (fun _ => 0) (by decide) (by decide) (by decide)
      (by decide) (by decide) (by decide) (by decide)).2.2.1,
    (executeWithRetryHook_onRetry ⟨"503 first"⟩ ⟨"503 second"⟩
      ⟨"401 Unauthorized"⟩ ⟨"timeout: op did not complete within 45000ms"⟩
      (1 : ℕ) (1 : ℕ) (fun _ => 0) (by decide) (by decide) (by decide)
      (by decide) (by decide) (by decide) (by decide)).2.2.2.1⟩

end TTI
